import Mathlib

/-!
Shallow embedding of the TuneCheck music-catalog backend (src/main.py).

The relational store is modelled as explicit lists of rows; each endpoint
handler becomes a pure function from a `State` (plus the authenticated
`current_user`, as resolved by `get_current_user`) to an `Except Err`
result carrying the response value and the post-state.  HTTP status codes
are mapped to the error taxonomy of the spec: 404 becomes `Err.notFound`,
400 becomes `Err.conflict`, 403 becomes `Err.forbidden`.  A Python-level
crash (attribute error on a dangling relationship) is modelled as `none`
in the recommendation engine's `Option` result.
-/

namespace TuneCheck

/-- Row of the `users` table (class `User` in src/main.py). -/
structure User where
  id : Nat
  username : String
  password_hash : String
  role : String
deriving DecidableEq

/-- Row of the `songs` table (class `Song` in src/main.py).
`date_of_publication` is an abstract day number: the code only stores it
and never compares or computes with it. -/
structure Song where
  id : Nat
  title : String
  album : String
  genre : String
  singer : String
  length : Int
  date_of_publication : Int
deriving DecidableEq

/-- Row of the `playlists` table (class `Playlist` in src/main.py). -/
structure Playlist where
  id : Nat
  name : String
  user_id : Nat
deriving DecidableEq

/-- Row of the `reviews` table (class `Review` in src/main.py). -/
structure Review where
  id : Nat
  user_id : Nat
  song_id : Nat
  rating : Int
  comment : String
deriving DecidableEq

/-- The whole relational store: one list of rows per table, plus the
autoincrement counters for primary keys.  `playlistSongs` is the
`playlist_songs` association table of (playlist_id, song_id) pairs. -/
structure State where
  users : List User
  songs : List Song
  playlists : List Playlist
  playlistSongs : List (Nat × Nat)
  reviews : List Review
  nextUserId : Nat
  nextSongId : Nat
  nextPlaylistId : Nat
  nextReviewId : Nat
deriving DecidableEq

/-- Error taxonomy: 404 `notFound`, 400 `conflict`, 403 `forbidden`. -/
inductive Err where
  | notFound
  | conflict
  | forbidden
deriving DecidableEq

/-- Request body `UserCreate` (pydantic model). -/
structure UserCreate where
  username : String
  password : String
  role : String
deriving DecidableEq

/-- Request body `SongCreate` (pydantic model). -/
structure SongCreate where
  title : String
  album : String
  genre : String
  singer : String
  length : Int
  date_of_publication : Int
deriving DecidableEq

/-- Request body `PlaylistCreate` (pydantic model). -/
structure PlaylistCreate where
  name : String
deriving DecidableEq

/-- Request body `ReviewCreate` (pydantic model). -/
structure ReviewCreate where
  rating : Int
  comment : String
deriving DecidableEq

/-- Abstraction of `hash_password` (src/main.py line 157): the code applies
hashlib.sha256 hexdigest, an external primitive; the embedding only needs
some fixed function of the password, never its cryptographic content. -/
def hash_password (password : String) : String :=
  "sha256$" ++ password

/-- The empty store with fresh autoincrement counters. -/
def initState : State :=
  ⟨[], [], [], [], [], 1, 1, 1, 1⟩

/-- `create_user` (POST /register, src/main.py lines 185-197): reject a
duplicate username with 400, else insert the user with the requested role. -/
def create_user (s : State) (user : UserCreate) : Except Err (User × State) :=
  if (s.users.find? (fun u => u.username == user.username)).isSome then
    .error .conflict
  else
    let new_user : User := ⟨s.nextUserId, user.username, hash_password user.password, user.role⟩
    .ok (new_user, { s with
      users := s.users ++ [new_user]
      nextUserId := s.nextUserId + 1 })

/-- `update_user` (PUT /user/id, src/main.py lines 210-224): 403 unless
self-or-admin, 404 if the target id is absent; then overwrite username and
password hash when the payload fields are non-empty (Python truthiness).
The payload's `role` field is never applied. -/
def update_user (s : State) (current_user : User) (user_id : Nat)
    (user_update : UserCreate) : Except Err (User × State) :=
  if current_user.id ≠ user_id ∧ current_user.role ≠ "Admin" then
    .error .forbidden
  else
    match s.users.find? (fun u => u.id == user_id) with
    | none => .error .notFound
    | some db_user =>
      let u1 := if user_update.username ≠ "" then
          { db_user with username := user_update.username } else db_user
      let u2 := if user_update.password ≠ "" then
          { u1 with password_hash := hash_password user_update.password } else u1
      .ok (u2, { s with users := s.users.map (fun u => if u.id == user_id then u2 else u) })

/-- `delete_user` (DELETE /user/id, src/main.py lines 228-238): 403 unless
self-or-admin, 404 if absent, else remove the row (no cascade). -/
def delete_user (s : State) (current_user : User) (user_id : Nat) :
    Except Err (Unit × State) :=
  if current_user.id ≠ user_id ∧ current_user.role ≠ "Admin" then
    .error .forbidden
  else
    match s.users.find? (fun u => u.id == user_id) with
    | none => .error .notFound
    | some _ => .ok ((), { s with users := s.users.filter (fun u => !(u.id == user_id)) })

/-- `add_song` (POST /songs, src/main.py lines 259-278): 403 unless admin,
400 when a song with the same (title, singer, album) exists, else insert. -/
def add_song (s : State) (current_user : User) (song : SongCreate) :
    Except Err (Song × State) :=
  if current_user.role ≠ "Admin" then
    .error .forbidden
  else if (s.songs.find? (fun g =>
      (g.title == song.title) && (g.singer == song.singer) && (g.album == song.album))).isSome then
    .error .conflict
  else
    let new_song : Song := ⟨s.nextSongId, song.title, song.album, song.genre,
      song.singer, song.length, song.date_of_publication⟩
    .ok (new_song, { s with
      songs := s.songs ++ [new_song]
      nextSongId := s.nextSongId + 1 })

/-- `update_song` (PUT /songs/id, src/main.py lines 281-298): 403 unless
admin, 404 if absent, else overwrite every field (no duplicate check). -/
def update_song (s : State) (current_user : User) (song_id : Nat)
    (song_update : SongCreate) : Except Err (Song × State) :=
  if current_user.role ≠ "Admin" then
    .error .forbidden
  else
    match s.songs.find? (fun g => g.id == song_id) with
    | none => .error .notFound
    | some db_song =>
      let updated : Song := ⟨db_song.id, song_update.title, song_update.album,
        song_update.genre, song_update.singer, song_update.length,
        song_update.date_of_publication⟩
      .ok (updated, { s with songs := s.songs.map (fun g => if g.id == song_id then updated else g) })

/-- `delete_song` (DELETE /songs/id, src/main.py lines 302-312): 403 unless
admin, 404 if absent, else remove the row and its association-table pairs;
reviews of the song are left behind (no cascade in the source). -/
def delete_song (s : State) (current_user : User) (song_id : Nat) :
    Except Err (Unit × State) :=
  if current_user.role ≠ "Admin" then
    .error .forbidden
  else
    match s.songs.find? (fun g => g.id == song_id) with
    | none => .error .notFound
    | some _ => .ok ((), { s with
        songs := s.songs.filter (fun g => !(g.id == song_id))
        playlistSongs := s.playlistSongs.filter (fun q => !(q.2 == song_id)) })

/-- `create_playlist` (POST /playlists, src/main.py lines 327-338): 400 when
the user already owns a playlist of that name, else insert. -/
def create_playlist (s : State) (current_user : User) (playlist : PlaylistCreate) :
    Except Err (Playlist × State) :=
  if (s.playlists.find? (fun p =>
      (p.name == playlist.name) && (p.user_id == current_user.id))).isSome then
    .error .conflict
  else
    let new_playlist : Playlist := ⟨s.nextPlaylistId, playlist.name, current_user.id⟩
    .ok (new_playlist, { s with
      playlists := s.playlists ++ [new_playlist]
      nextPlaylistId := s.nextPlaylistId + 1 })

/-- `add_song_to_pl` (POST /playlists/pid/add/sid, src/main.py lines
340-359): 404 if the playlist is absent, 403 unless the actor owns it,
404 if the song is absent, 400 if already a member, else append the pair. -/
def add_song_to_pl (s : State) (current_user : User) (playlist_id : Nat)
    (song_id : Nat) : Except Err (Unit × State) :=
  match s.playlists.find? (fun p => p.id == playlist_id) with
  | none => .error .notFound
  | some playlist =>
    if playlist.user_id ≠ current_user.id then
      .error .forbidden
    else
      match s.songs.find? (fun g => g.id == song_id) with
      | none => .error .notFound
      | some song =>
        if s.playlistSongs.contains (playlist.id, song.id) then
          .error .conflict
        else
          .ok ((), { s with playlistSongs := s.playlistSongs ++ [(playlist.id, song.id)] })

/-- `update_playlist` (PUT /playlists/pid, src/main.py lines 362-379):
404 if absent, 403 unless the actor owns it, 400 when the actor already
has a playlist named like the payload, else rename. -/
def update_playlist (s : State) (current_user : User) (playlist_id : Nat)
    (playlist_update : PlaylistCreate) : Except Err (Playlist × State) :=
  match s.playlists.find? (fun p => p.id == playlist_id) with
  | none => .error .notFound
  | some playlist =>
    if playlist.user_id ≠ current_user.id then
      .error .forbidden
    else if (s.playlists.find? (fun p =>
        (p.name == playlist_update.name) && (p.user_id == current_user.id))).isSome then
      .error .conflict
    else
      let updated : Playlist := ⟨playlist.id, playlist_update.name, playlist.user_id⟩
      .ok (updated,
        { s with playlists := s.playlists.map (fun p => if p.id == playlist_id then updated else p) })

/-- `delete_playlist` (DELETE /playlists/pid, src/main.py lines 383-394):
404 if absent, 403 unless the actor owns it, else remove the row and its
association-table pairs. -/
def delete_playlist (s : State) (current_user : User) (playlist_id : Nat) :
    Except Err (Unit × State) :=
  match s.playlists.find? (fun p => p.id == playlist_id) with
  | none => .error .notFound
  | some playlist =>
    if playlist.user_id ≠ current_user.id then
      .error .forbidden
    else
      .ok ((), { s with
        playlists := s.playlists.filter (fun p => !(p.id == playlist_id))
        playlistSongs := s.playlistSongs.filter (fun q => !(q.1 == playlist_id)) })

/-- `create_review` (POST /songs/sid/reviews, src/main.py lines 397-418):
404 if the song is absent, 400 when the actor already reviewed it, 400 when
the rating is outside [1,5], else insert the review. -/
def create_review (s : State) (current_user : User) (song_id : Nat)
    (review : ReviewCreate) : Except Err (Review × State) :=
  match s.songs.find? (fun g => g.id == song_id) with
  | none => .error .notFound
  | some exist_song =>
    if (s.reviews.find? (fun r =>
        (r.user_id == current_user.id) && (r.song_id == exist_song.id))).isSome then
      .error .conflict
    else if review.rating < 1 ∨ 5 < review.rating then
      .error .conflict
    else
      let new_review : Review := ⟨s.nextReviewId, current_user.id, exist_song.id,
        review.rating, review.comment⟩
      .ok (new_review, { s with
        reviews := s.reviews ++ [new_review]
        nextReviewId := s.nextReviewId + 1 })

/-! ## Recommendation engine (GET /recommendations, src/main.py 422-450) -/

/-- `get_top_rated` (line 424): the requesting user's reviews with rating
at least 4. -/
def topRatedReviews (s : State) (uid : Nat) : List Review :=
  s.reviews.filter (fun r => (r.user_id == uid) && decide (4 ≤ r.rating))

/-- `rated_songs` (lines 432-433): ids of every song the user reviewed,
at any rating. -/
def ratedIds (s : State) (uid : Nat) : List Nat :=
  (s.reviews.filter (fun r => r.user_id == uid)).map Review.song_id

/-- Number of occurrences of `g` in `gs` (`Counter` counts). -/
def countOcc (g : String) (gs : List String) : Nat :=
  (gs.filter (fun x => x == g)).length

/-- The distinct elements of a list, keeping the first occurrence of each,
in encounter order — the key order of a Python dict-based `Counter`. -/
def dedupFirst {α : Type} [DecidableEq α] : List α → List α
  | [] => []
  | x :: xs => x :: (dedupFirst xs).filter (fun y => decide (y ≠ x))

/-- Left fold of `Counter.most_common(1)`: keep the current best genre and
replace it only on a strictly greater count, so on ties the
first-encountered genre wins (heapq.nlargest is stable). -/
def argmaxCount (gs : List String) (best : String) : List String → String
  | [] => best
  | g :: ds => argmaxCount gs (if countOcc best gs < countOcc g gs then g else best) ds

/-- `Counter(genres).most_common(1)[0][0]` (line 431): the first-encountered
genre attaining the maximum multiplicity in `gs`. Only applied to non-empty
lists by the code; returns "" on `[]`. -/
def mostCommonGenre (gs : List String) : String :=
  match dedupFirst gs with
  | [] => ""
  | d :: ds => argmaxCount gs d ds

/-- The predicate "x attains the maximum multiplicity among the elements
of `l`, multiplicities counted in `gs`" — used to state which genre the
`Counter`-based computation must return. -/
def maxPred (gs l : List String) (x : String) : Bool :=
  decide (∀ y ∈ l, countOcc y gs ≤ countOcc x gs)

/-- `[review.song.genre for review in get_top_rated]` (line 429): the genre
of each review's song, in review order; `none` models the Python attribute
error raised when a review's `song` relationship is dangling (its song was
deleted — no cascade). -/
def genresOf (s : State) : List Review → Option (List String)
  | [] => some []
  | r :: rs =>
    match s.songs.find? (fun g => g.id == r.song_id) with
    | none => none
    | some song => (genresOf s rs).map (fun gs => song.genre :: gs)

/-- Mean rating of the song `sid` over all reviews (the aggregate
`func.avg(Review.rating)` grouped by `song_id`, lines 439-441): the
rational `sum of ratings / number of ratings`, built with `mkRat`. -/
def meanRating (s : State) (sid : Nat) : ℚ :=
  let rs := (s.reviews.filter (fun r => r.song_id == sid)).map Review.rating
  mkRat rs.sum rs.length

/-- Insert `x` into a list sorted by strictly descending interest: `x` goes
before the first element whose key is not greater than its own, so an
element inserted later (coming earlier in the original list) precedes
elements of equal key. -/
def insertDesc (key : Nat → ℚ) (x : Nat) : List Nat → List Nat
  | [] => [x]
  | y :: ys => if key x < key y then y :: insertDesc key x ys else x :: y :: ys

/-- Stable insertion sort by descending key. -/
def sortDesc (key : Nat → ℚ) : List Nat → List Nat
  | [] => []
  | x :: xs => insertDesc key x (sortDesc key xs)

/-- `top_hits` (lines 439-442): group all reviews by `song_id`, order the
groups by descending mean rating and take the first 3 ids.  SQL leaves the
relative order of equal means unspecified; the model fixes the stable
first-occurrence order as the tie-break. -/
def topHits (s : State) : List Nat :=
  (sortDesc (meanRating s) (dedupFirst (s.reviews.map Review.song_id))).take 3

/-- Lines 438-448 after the personalized candidates came out empty: fetch
the top-hit songs with an unordered `id IN top_ids` query — which returns
rows in catalog (id) order — or, with no reviews in the store at all, the
first 3 catalog songs. -/
def globalFallback (s : State) : List Song :=
  let top_hits := topHits s
  if top_hits.isEmpty then s.songs.take 3
  else s.songs.filter (fun g => top_hits.contains g.id)

/-- Lines 424-437: the personalized half of `get_recommendations`.
`some []` means the branch produced no candidates (either the user has no
top-rated reviews or no unrated song of the favourite genre remains);
`none` models the crash on a dangling `review.song`. -/
def personalPart (s : State) (uid : Nat) : Option (List Song) :=
  let get_top_rated := topRatedReviews s uid
  if get_top_rated.isEmpty then some []
  else
    match genresOf s get_top_rated with
    | none => none
    | some genres =>
      if genres.isEmpty then some []
      else
        let most_common_genre := mostCommonGenre genres
        let rated_songs := ratedIds s uid
        some ((s.songs.filter (fun g =>
          (g.genre == most_common_genre) && !(rated_songs.contains g.id))).take 3)

/-- `get_recommendations` (lines 422-450): the personalized branch, then the
global-top-hits fallback, then the first-3-songs fallback. -/
def getRecommendations (s : State) (uid : Nat) : Option (List Song) :=
  match personalPart s uid with
  | none => none
  | some recommended_songs =>
    if recommended_songs.isEmpty then some (globalFallback s)
    else some recommended_songs

/-- The genres of the user's top-rated reviews' songs, skipping dangling
reviews — equal to the list the code builds whenever no review dangles. -/
def userGenres (s : State) (uid : Nat) : List String :=
  (topRatedReviews s uid).filterMap
    (fun r => (s.songs.find? (fun g => g.id == r.song_id)).map Song.genre)

/-- The candidate list of the personalized branch, as the spec describes it:
catalog songs of the most common genre not yet rated by the user, first 3
in catalog order. -/
def personalCands (s : State) (uid : Nat) : List Song :=
  (s.songs.filter (fun g =>
    (g.genre == mostCommonGenre (userGenres s uid)) &&
    !((ratedIds s uid).contains g.id))).take 3

/-- Catalog de-duplication invariant: no two songs share the
(title, singer, album) triple. -/
def CatalogDedup (s : State) : Prop :=
  s.songs.Pairwise (fun a b => ¬(a.title = b.title ∧ a.singer = b.singer ∧ a.album = b.album))

deriving instance DecidableEq for Except

instance (s : State) : Decidable (CatalogDedup s) :=
  inferInstanceAs (Decidable (List.Pairwise _ _))

/-- One successful mutating operation of the system, performed by an
authenticated actor (a user present in the store, as `get_current_user`
guarantees). -/
inductive Step : State → State → Prop where
  | createUser (s : State) (u : UserCreate) (r : User) (s' : State) :
      create_user s u = .ok (r, s') → Step s s'
  | updateUser (s : State) (actor : User) (uid : Nat) (up : UserCreate) (r : User) (s' : State) :
      actor ∈ s.users → update_user s actor uid up = .ok (r, s') → Step s s'
  | deleteUser (s : State) (actor : User) (uid : Nat) (r : Unit) (s' : State) :
      actor ∈ s.users → delete_user s actor uid = .ok (r, s') → Step s s'
  | addSong (s : State) (actor : User) (song : SongCreate) (r : Song) (s' : State) :
      actor ∈ s.users → add_song s actor song = .ok (r, s') → Step s s'
  | updateSong (s : State) (actor : User) (sid : Nat) (up : SongCreate) (r : Song) (s' : State) :
      actor ∈ s.users → update_song s actor sid up = .ok (r, s') → Step s s'
  | deleteSong (s : State) (actor : User) (sid : Nat) (r : Unit) (s' : State) :
      actor ∈ s.users → delete_song s actor sid = .ok (r, s') → Step s s'
  | createPlaylist (s : State) (actor : User) (p : PlaylistCreate) (r : Playlist) (s' : State) :
      actor ∈ s.users → create_playlist s actor p = .ok (r, s') → Step s s'
  | addSongToPl (s : State) (actor : User) (pid sid : Nat) (r : Unit) (s' : State) :
      actor ∈ s.users → add_song_to_pl s actor pid sid = .ok (r, s') → Step s s'
  | updatePlaylist (s : State) (actor : User) (pid : Nat) (up : PlaylistCreate) (r : Playlist) (s' : State) :
      actor ∈ s.users → update_playlist s actor pid up = .ok (r, s') → Step s s'
  | deletePlaylist (s : State) (actor : User) (pid : Nat) (r : Unit) (s' : State) :
      actor ∈ s.users → delete_playlist s actor pid = .ok (r, s') → Step s s'
  | createReview (s : State) (actor : User) (sid : Nat) (rev : ReviewCreate) (r : Review) (s' : State) :
      actor ∈ s.users → create_review s actor sid rev = .ok (r, s') → Step s s'

/-- Like `Step`, but with song update excluded. -/
inductive StepSafe : State → State → Prop where
  | createUser (s : State) (u : UserCreate) (r : User) (s' : State) :
      create_user s u = .ok (r, s') → StepSafe s s'
  | updateUser (s : State) (actor : User) (uid : Nat) (up : UserCreate) (r : User) (s' : State) :
      actor ∈ s.users → update_user s actor uid up = .ok (r, s') → StepSafe s s'
  | deleteUser (s : State) (actor : User) (uid : Nat) (r : Unit) (s' : State) :
      actor ∈ s.users → delete_user s actor uid = .ok (r, s') → StepSafe s s'
  | addSong (s : State) (actor : User) (song : SongCreate) (r : Song) (s' : State) :
      actor ∈ s.users → add_song s actor song = .ok (r, s') → StepSafe s s'
  | deleteSong (s : State) (actor : User) (sid : Nat) (r : Unit) (s' : State) :
      actor ∈ s.users → delete_song s actor sid = .ok (r, s') → StepSafe s s'
  | createPlaylist (s : State) (actor : User) (p : PlaylistCreate) (r : Playlist) (s' : State) :
      actor ∈ s.users → create_playlist s actor p = .ok (r, s') → StepSafe s s'
  | addSongToPl (s : State) (actor : User) (pid sid : Nat) (r : Unit) (s' : State) :
      actor ∈ s.users → add_song_to_pl s actor pid sid = .ok (r, s') → StepSafe s s'
  | updatePlaylist (s : State) (actor : User) (pid : Nat) (up : PlaylistCreate) (r : Playlist) (s' : State) :
      actor ∈ s.users → update_playlist s actor pid up = .ok (r, s') → StepSafe s s'
  | deletePlaylist (s : State) (actor : User) (pid : Nat) (r : Unit) (s' : State) :
      actor ∈ s.users → delete_playlist s actor pid = .ok (r, s') → StepSafe s s'
  | createReview (s : State) (actor : User) (sid : Nat) (rev : ReviewCreate) (r : Review) (s' : State) :
      actor ∈ s.users → create_review s actor sid rev = .ok (r, s') → StepSafe s s'

/-- States reachable from the empty store by successful operations. -/
def Reachable (s : State) : Prop :=
  Relation.ReflTransGen Step initState s

/-- States reachable from the empty store without song updates. -/
def ReachableSafe (s : State) : Prop :=
  Relation.ReflTransGen StepSafe initState s

/-! ## Concrete scenario states -/

/-- The scenario of `test_recommendations_logic`: two Rock songs and a Pop
song; user 1 rated the first Rock song 5. -/
def w1S : State :=
  ⟨[], [⟨1, "Chop Suey", "Nz", "Rock", "SOAD", 122, 0⟩,
        ⟨2, "Cigaro", "Nz", "Rock", "SOAD", 188, 0⟩,
        ⟨3, "Dance Monkeys", "Mrazq", "Pop", "NeZnam", 67, 0⟩], [], [],
    [⟨1, 1, 1, 5, "Hell yeah"⟩], 1, 4, 1, 2⟩

/-- One song, reviewed (rating 3) by user 2 only; user 1 has no reviews. -/
def w2S : State :=
  ⟨[], [⟨1, "A", "Al", "G", "S", 1, 0⟩], [], [], [⟨1, 2, 1, 3, ""⟩], 1, 2, 1, 2⟩

/-- Two songs; user 2 rated song 1 with 3 and song 2 with 5, so song 2 has
the strictly higher mean rating; user 1 has no reviews. -/
def cx2S : State :=
  ⟨[], [⟨1, "A", "Al", "G", "S", 1, 0⟩, ⟨2, "B", "Al", "G", "S", 1, 0⟩], [], [],
    [⟨1, 2, 1, 3, ""⟩, ⟨2, 2, 2, 5, ""⟩], 1, 3, 1, 3⟩

/-- Four songs alternating genres Rock, Pop, Pop, Rock; user 1 rated all
four with rating ≥ 4, so Rock and Pop are tied at count 2 and Rock is
encountered first. -/
def w3S : State :=
  ⟨[], [⟨1, "a", "a", "Rock", "x", 1, 0⟩, ⟨2, "b", "b", "Pop", "x", 1, 0⟩,
        ⟨3, "c", "c", "Pop", "x", 1, 0⟩, ⟨4, "d", "d", "Rock", "x", 1, 0⟩], [], [],
    [⟨1, 1, 1, 5, ""⟩, ⟨2, 1, 2, 5, ""⟩, ⟨3, 1, 3, 4, ""⟩, ⟨4, 1, 4, 4, ""⟩],
    1, 5, 1, 5⟩

/-- A store holding a rating-5 review by user 1 of song id 5 while no song
exists — the state left behind by deleting a reviewed song (`delete_song`
does not cascade to reviews). -/
def cx4S : State :=
  ⟨[], [], [], [], [⟨1, 1, 5, 5, ""⟩], 1, 1, 1, 2⟩

/-- The single catalog song of the `w5S` scenario. -/
def w5Song : Song :=
  ⟨1, "T", "A", "G", "S", 1, 0⟩

/-- One song, which user 1 has already reviewed with rating 3 (below the
personalization threshold). -/
def w5S : State :=
  ⟨[], [w5Song], [], [], [⟨1, 1, 1, 3, "meh"⟩], 1, 2, 1, 2⟩

/-- The administrator created first in the C6 reachability chain. -/
def wAdmin : User :=
  ⟨1, "boss", "sha256$pw", "Admin"⟩

/-- After registering the admin. -/
def s6a : State :=
  ⟨[wAdmin], [], [], [], [], 2, 1, 1, 1⟩

/-- After the admin added song ("T", "S", "A"). -/
def s6b : State :=
  ⟨[wAdmin], [⟨1, "T", "A", "G", "S", 1, 0⟩], [], [], [], 2, 2, 1, 1⟩

/-- After the admin added a second song ("T2", "S", "A"). -/
def s6c : State :=
  ⟨[wAdmin], [⟨1, "T", "A", "G", "S", 1, 0⟩, ⟨2, "T2", "A", "G", "S", 1, 0⟩],
    [], [], [], 2, 3, 1, 1⟩

/-- After the admin updated song 2's title to "T": two songs now share the
(title, singer, album) triple ("T", "S", "A"). -/
def cx6S : State :=
  ⟨[wAdmin], [⟨1, "T", "A", "G", "S", 1, 0⟩, ⟨2, "T", "A", "G", "S", 1, 0⟩],
    [], [], [], 2, 3, 1, 1⟩

/-- A playlist owned by user 2, in a store where the acting admin has id 1. -/
def w8S : State :=
  ⟨[wAdmin, ⟨2, "olia", "sha256$x", "User"⟩], [⟨5, "T", "A", "G", "S", 1, 0⟩],
    [⟨1, "Mix", 2⟩], [], [], 3, 6, 2, 1⟩

/-- The plain user whose account gets updated in the C10 scenario. -/
def w10U : User :=
  ⟨1, "nesi", "sha256$parola1", "User"⟩

/-- A store with just that user. -/
def w10S : State :=
  ⟨[w10U], [], [], [], [], 2, 1, 1, 1⟩

/-- The user after a self-update with payload
(username "nova", password "parola2", role "Admin"): username and password
hash changed, role still "User". -/
def w10U2 : User :=
  ⟨1, "nova", "sha256$parola2", "User"⟩

/-- The store after that update. -/
def w10S2 : State :=
  ⟨[w10U2], [], [], [], [], 2, 1, 1, 1⟩

/-! ## Helper lemmas about the counting and sorting primitives -/

theorem mem_dedupFirst {α : Type} [DecidableEq α] (a : α) :
    ∀ l : List α, a ∈ dedupFirst l ↔ a ∈ l
  | [] => Iff.rfl
  | x :: xs => by
    simp only [dedupFirst, List.mem_cons, List.mem_filter, decide_eq_true_eq]
    constructor
    · rintro (rfl | ⟨h, _⟩)
      · exact Or.inl rfl
      · exact Or.inr ((mem_dedupFirst a xs).1 h)
    · rintro (rfl | h)
      · exact Or.inl rfl
      · by_cases hax : a = x
        · exact Or.inl hax
        · exact Or.inr ⟨(mem_dedupFirst a xs).2 h, hax⟩

theorem nodup_dedupFirst {α : Type} [DecidableEq α] :
    ∀ l : List α, (dedupFirst l).Nodup
  | [] => List.nodup_nil
  | x :: xs => by
    rw [dedupFirst, List.nodup_cons]
    refine ⟨?_, (nodup_dedupFirst xs).filter _⟩
    intro hx
    rw [List.mem_filter, decide_eq_true_eq] at hx
    exact hx.2 rfl

theorem find?_cons_pos {α : Type} (p : α → Bool) (a : α) (l : List α) (h : p a = true) :
    (a :: l).find? p = some a := by
  rw [List.find?_cons, h]

theorem find?_cons_neg {α : Type} (p : α → Bool) (a : α) (l : List α) (h : p a = false) :
    (a :: l).find? p = l.find? p := by
  rw [List.find?_cons, h]

theorem find?_filter_ne {α : Type} [DecidableEq α] (p : α → Bool) (x : α) (hx : p x = false) :
    ∀ l : List α, (l.filter (fun y => decide (y ≠ x))).find? p = l.find? p
  | [] => rfl
  | y :: ys => by
    rcases eq_or_ne y x with rfl | hyx
    · have hstep : (y :: ys).filter (fun z => decide (z ≠ y))
          = ys.filter (fun z => decide (z ≠ y)) := by
        rw [List.filter_cons]
        simp
      rw [hstep, find?_filter_ne p y hx ys, find?_cons_neg p y ys hx]
    · have hstep : (y :: ys).filter (fun z => decide (z ≠ x))
          = y :: ys.filter (fun z => decide (z ≠ x)) := by
        rw [List.filter_cons]
        simp [hyx]
      rw [hstep]
      cases hpy : p y
      · rw [find?_cons_neg p y _ hpy, find?_cons_neg p y ys hpy]
        exact find?_filter_ne p x hx ys
      · rw [find?_cons_pos p y _ hpy, find?_cons_pos p y ys hpy]

theorem find?_dedupFirst {α : Type} [DecidableEq α] (p : α → Bool) :
    ∀ l : List α, (dedupFirst l).find? p = l.find? p
  | [] => rfl
  | x :: xs => by
    rw [dedupFirst]
    cases hpx : p x
    · rw [find?_cons_neg p x _ hpx, find?_cons_neg p x xs hpx,
        find?_filter_ne p x hpx, find?_dedupFirst p xs]
    · rw [find?_cons_pos p x _ hpx, find?_cons_pos p x xs hpx]

theorem argmaxCount_of_max (gs : List String) :
    ∀ (ds : List String) (best : String),
      (∀ g ∈ ds, countOcc g gs ≤ countOcc best gs) → argmaxCount gs best ds = best
  | [], _, _ => rfl
  | g :: ds, best, h => by
    rw [argmaxCount, if_neg (not_lt.mpr (h g (by simp)))]
    exact argmaxCount_of_max gs ds best (fun g' hg' => h g' (by simp [hg']))

theorem argmaxCount_find? (gs : List String) :
    ∀ (ds : List String) (best : String),
      (best :: ds).find? (maxPred gs (best :: ds)) = some (argmaxCount gs best ds)
  | [], best => by
    have hp : maxPred gs [best] best = true := by simp [maxPred]
    rw [find?_cons_pos _ best [] hp, argmaxCount]
  | g :: ds', best => by
    have key : ∀ x, (∀ y ∈ best :: g :: ds', countOcc y gs ≤ countOcc x gs) ↔
        (∀ y ∈ (if countOcc best gs < countOcc g gs then g else best) :: ds',
          countOcc y gs ≤ countOcc x gs) := by
      intro x
      constructor
      · intro h y hy
        rcases List.mem_cons.mp hy with rfl | hy'
        · by_cases hbg : countOcc best gs < countOcc g gs
          · rw [if_pos hbg]; exact h g (by simp)
          · rw [if_neg hbg]; exact h best (by simp)
        · exact h y (by simp [hy'])
      · intro h
        by_cases hbg : countOcc best gs < countOcc g gs
        · intro y hy
          rcases List.mem_cons.mp hy with rfl | hy'
          · exact le_trans (le_of_lt hbg) (h g (by simp [hbg]))
          · rcases List.mem_cons.mp hy' with rfl | hy''
            · exact h y (by simp [hbg])
            · exact h y (by simp [hy''])
        · intro y hy
          have hb : countOcc best gs ≤ countOcc x gs := h best (by simp [hbg])
          rcases List.mem_cons.mp hy with rfl | hy'
          · exact hb
          · rcases List.mem_cons.mp hy' with rfl | hy''
            · exact le_trans (le_of_not_lt hbg) hb
            · exact h y (by simp [hy''])
    have hfun : maxPred gs (best :: g :: ds')
        = maxPred gs ((if countOcc best gs < countOcc g gs then g else best) :: ds') :=
      funext fun x => decide_eq_decide.mpr (key x)
    rw [argmaxCount]
    by_cases hbg : countOcc best gs < countOcc g gs
    · rw [if_pos hbg]
      have hpb : maxPred gs (best :: g :: ds') best = false := by
        simp only [maxPred, decide_eq_false_iff_not]
        intro hall
        exact absurd (hall g (by simp)) (not_le.mpr hbg)
      rw [find?_cons_neg _ best (g :: ds') hpb, hfun, if_pos hbg]
      exact argmaxCount_find? gs ds' g
    · rw [if_neg hbg]
      by_cases hmax : ∀ y ∈ best :: g :: ds', countOcc y gs ≤ countOcc best gs
      · have hpb : maxPred gs (best :: g :: ds') best = true := by
          simp only [maxPred, decide_eq_true_eq]
          exact hmax
        rw [find?_cons_pos _ best (g :: ds') hpb]
        rw [argmaxCount_of_max gs ds' best (fun y hy => hmax y (by simp [hy]))]
      · have hpb : maxPred gs (best :: g :: ds') best = false := by
          simp only [maxPred, decide_eq_false_iff_not]
          exact hmax
        have hpg : maxPred gs (best :: g :: ds') g = false := by
          simp only [maxPred, decide_eq_false_iff_not]
          intro hg
          exact hmax (fun y hy => le_trans (hg y hy) (le_of_not_lt hbg))
        rw [find?_cons_neg _ best (g :: ds') hpb, find?_cons_neg _ g ds' hpg]
        have h1 := argmaxCount_find? gs ds' best
        have hpb' : maxPred gs (best :: ds') best = false := by
          simp only [maxPred, decide_eq_false_iff_not]
          intro hb
          apply hmax
          have hk := key best
          rw [if_neg hbg] at hk
          exact hk.mpr hb
        rw [find?_cons_neg _ best ds' hpb'] at h1
        rw [hfun, if_neg hbg]
        exact h1

theorem mostCommon_first_max (gs : List String) (h : gs ≠ []) :
    gs.find? (maxPred gs gs) = some (mostCommonGenre gs) := by
  obtain ⟨d, ds, hdd⟩ : ∃ d ds, dedupFirst gs = d :: ds := by
    cases gs with
    | nil => exact absurd rfl h
    | cons x xs => exact ⟨x, _, rfl⟩
  have hmem : ∀ y : String, y ∈ d :: ds ↔ y ∈ gs := by
    intro y; rw [← hdd]; exact mem_dedupFirst y gs
  have hfun : maxPred gs gs = maxPred gs (d :: ds) := by
    funext x
    apply decide_eq_decide.mpr
    constructor
    · intro hh y hy; exact hh y ((hmem y).mp hy)
    · intro hh y hy; exact hh y ((hmem y).mpr hy)
  have h2 : mostCommonGenre gs = argmaxCount gs d ds := by
    unfold mostCommonGenre
    rw [hdd]
  rw [h2, hfun, ← find?_dedupFirst, hdd]
  exact argmaxCount_find? gs ds d

theorem insertDesc_perm (key : Nat → ℚ) (x : Nat) :
    ∀ l : List Nat, (insertDesc key x l).Perm (x :: l)
  | [] => List.Perm.refl _
  | y :: ys => by
    rw [insertDesc]
    split
    · exact ((insertDesc_perm key x ys).cons y).trans (List.Perm.swap x y ys)
    · exact List.Perm.refl _

theorem sortDesc_perm (key : Nat → ℚ) : ∀ l : List Nat, (sortDesc key l).Perm l
  | [] => List.Perm.refl _
  | x :: xs => (insertDesc_perm key x (sortDesc key xs)).trans ((sortDesc_perm key xs).cons x)

theorem insertDesc_pairwise (key : Nat → ℚ) (x : Nat) :
    ∀ l : List Nat, l.Pairwise (fun a b => key b ≤ key a) →
      (insertDesc key x l).Pairwise (fun a b => key b ≤ key a)
  | [], _ => by simp [insertDesc]
  | y :: ys, h => by
    rw [insertDesc]
    split
    · rename_i hxy
      rw [List.pairwise_cons] at h ⊢
      obtain ⟨hy, hys⟩ := h
      refine ⟨?_, insertDesc_pairwise key x ys hys⟩
      intro z hz
      have hz' : z ∈ x :: ys := (insertDesc_perm key x ys).mem_iff.mp hz
      rcases List.mem_cons.mp hz' with rfl | hz''
      · exact le_of_lt hxy
      · exact hy z hz''
    · rename_i hxy
      rw [List.pairwise_cons]
      refine ⟨?_, h⟩
      intro z hz
      rcases List.mem_cons.mp hz with rfl | hz'
      · exact le_of_not_lt hxy
      · exact le_trans ((List.pairwise_cons.mp h).1 z hz') (le_of_not_lt hxy)

theorem sortDesc_pairwise (key : Nat → ℚ) :
    ∀ l : List Nat, (sortDesc key l).Pairwise (fun a b => key b ≤ key a)
  | [] => List.Pairwise.nil
  | x :: xs => insertDesc_pairwise key x _ (sortDesc_pairwise key xs)

/-! ## Lemmas about the recommendation engine -/

theorem genresOf_eq_some (s : State) :
    ∀ l : List Review, (∀ r ∈ l, ∃ g ∈ s.songs, g.id = r.song_id) →
      genresOf s l = some (l.filterMap
        (fun r => (s.songs.find? (fun g => g.id == r.song_id)).map Song.genre))
  | [], _ => rfl
  | r :: rs, h => by
    obtain ⟨g0, hg0, hid⟩ := h r (by simp)
    have hs : (s.songs.find? (fun g => g.id == r.song_id)).isSome = true := by
      rw [List.find?_isSome]
      exact ⟨g0, hg0, by simp [hid]⟩
    obtain ⟨g', hg'⟩ := Option.isSome_iff_exists.mp hs
    rw [genresOf, hg', genresOf_eq_some s rs (fun r' hr' => h r' (by simp [hr'])),
      List.filterMap_cons, hg']
    rfl

theorem userGenres_cons (s : State) (uid : Nat) (r0 : Review) (rs0 : List Review)
    (hcons : topRatedReviews s uid = r0 :: rs0)
    (h0 : ∃ g ∈ s.songs, g.id = r0.song_id) :
    ∃ g0 gs0, userGenres s uid = g0 :: gs0 := by
  obtain ⟨gg, hgg, hid⟩ := h0
  have hs : (s.songs.find? (fun g => g.id == r0.song_id)).isSome = true := by
    rw [List.find?_isSome]
    exact ⟨gg, hgg, by simp [hid]⟩
  obtain ⟨g', hg'⟩ := Option.isSome_iff_exists.mp hs
  unfold userGenres
  rw [hcons, List.filterMap_cons, hg']
  exact ⟨g'.genre, _, rfl⟩

theorem personalPart_of_noTop (s : State) (uid : Nat)
    (h : topRatedReviews s uid = []) : personalPart s uid = some [] := by
  unfold personalPart
  rw [h]
  rfl

theorem personalPart_eq (s : State) (uid : Nat)
    (htop : topRatedReviews s uid ≠ [])
    (hint : ∀ r ∈ topRatedReviews s uid, ∃ g ∈ s.songs, g.id = r.song_id) :
    personalPart s uid = some (personalCands s uid) := by
  obtain ⟨r0, rs0, hcons⟩ : ∃ r0 rs0, topRatedReviews s uid = r0 :: rs0 := by
    cases htr : topRatedReviews s uid with
    | nil => exact absurd htr htop
    | cons a l => exact ⟨a, l, rfl⟩
  have hgen : genresOf s (topRatedReviews s uid) = some (userGenres s uid) :=
    genresOf_eq_some s (topRatedReviews s uid) hint
  obtain ⟨g0, gs0, hug⟩ :=
    userGenres_cons s uid r0 rs0 hcons (hint r0 (by rw [hcons]; simp))
  have htop' : (topRatedReviews s uid).isEmpty = false := by rw [hcons]; rfl
  have hug' : (userGenres s uid).isEmpty = false := by rw [hug]; rfl
  unfold personalPart
  simp only [htop', hgen, hug', Bool.false_eq_true, if_false]
  rfl

theorem getRecommendations_of_personal (s : State) (uid : Nat) (cands : List Song)
    (hpp : personalPart s uid = some cands) :
    getRecommendations s uid
      = some (if cands = [] then globalFallback s else cands) := by
  unfold getRecommendations
  rw [hpp]
  by_cases hc : cands = []
  · subst hc
    simp
  · have hne : cands.isEmpty = false := by
      cases hcc : cands with
      | nil => exact absurd hcc hc
      | cons a l => rfl
    simp only [hne, Bool.false_eq_true, if_false, if_neg hc]

theorem topHits_ne_nil (s : State) (h : s.reviews ≠ []) : topHits s ≠ [] := by
  unfold topHits
  intro hc
  rcases List.take_eq_nil_iff.mp hc with h3 | hnil
  · exact absurd h3 (by decide)
  · have hperm := sortDesc_perm (meanRating s) (dedupFirst (s.reviews.map Review.song_id))
    rw [hnil] at hperm
    have hded : dedupFirst (s.reviews.map Review.song_id) = [] :=
      List.Perm.eq_nil hperm.symm
    cases hrev : s.reviews with
    | nil => exact absurd hrev h
    | cons a l =>
      rw [hrev] at hded
      simp [dedupFirst] at hded

theorem topHits_length (s : State) : (topHits s).length ≤ 3 :=
  List.length_take_le 3 _

theorem topHits_nodup (s : State) : (topHits s).Nodup := by
  unfold topHits
  refine List.Nodup.sublist (List.take_sublist 3 _) ?_
  exact ((sortDesc_perm (meanRating s) _).nodup_iff).mpr (nodup_dedupFirst _)

theorem topHits_top3 (s : State) :
    ∀ i ∈ topHits s, ∀ j ∈ s.reviews.map Review.song_id,
      j ∉ topHits s → meanRating s j ≤ meanRating s i := by
  intro i hi j hj hjn
  have hjL : j ∈ sortDesc (meanRating s) (dedupFirst (s.reviews.map Review.song_id)) :=
    (sortDesc_perm (meanRating s) _).mem_iff.mpr ((mem_dedupFirst j _).mpr hj)
  have hsplit := List.take_append_drop 3
    (sortDesc (meanRating s) (dedupFirst (s.reviews.map Review.song_id)))
  have hjdrop : j ∈ (sortDesc (meanRating s)
      (dedupFirst (s.reviews.map Review.song_id))).drop 3 := by
    rcases List.mem_append.mp (by rw [hsplit]; exact hjL) with hjt | hjd
    · exact absurd hjt hjn
    · exact hjd
  have hpw : List.Pairwise (fun a b => meanRating s b ≤ meanRating s a)
      ((sortDesc (meanRating s) (dedupFirst (s.reviews.map Review.song_id))).take 3 ++
       (sortDesc (meanRating s) (dedupFirst (s.reviews.map Review.song_id))).drop 3) := by
    rw [hsplit]
    exact sortDesc_pairwise (meanRating s) _
  exact (List.pairwise_append.mp hpw).2.2 i hi j hjdrop

theorem globalFallback_bounded (s : State) (hids : (s.songs.map Song.id).Nodup) :
    (globalFallback s).length ≤ 3 ∧ ((globalFallback s).map Song.id).Nodup := by
  unfold globalFallback
  by_cases ht : (topHits s).isEmpty
  · rw [if_pos ht]
    exact ⟨List.length_take_le 3 _,
      List.Nodup.sublist (List.Sublist.map Song.id (List.take_sublist 3 _)) hids⟩
  · rw [if_neg ht]
    have hnd : ((s.songs.filter (fun g => (topHits s).contains g.id)).map Song.id).Nodup :=
      List.Nodup.sublist (List.Sublist.map Song.id (List.filter_sublist _)) hids
    refine ⟨?_, hnd⟩
    have hsub : (s.songs.filter (fun g => (topHits s).contains g.id)).map Song.id
        ⊆ topHits s := by
      intro x hx
      obtain ⟨g, hg, rfl⟩ := List.mem_map.mp hx
      have := (List.mem_filter.mp hg).2
      simpa [List.contains, List.elem_iff] using this
    calc (s.songs.filter (fun g => (topHits s).contains g.id)).length
        = ((s.songs.filter (fun g => (topHits s).contains g.id)).map Song.id).length := by
          rw [List.length_map]
      _ ≤ (topHits s).length := (List.subperm_of_subset hnd hsub).length_le
      _ ≤ 3 := topHits_length s

/-! ## Claims about the recommendation engine -/

/-- Claim C1: for every user with at least one rating-≥4 review (all of
whose reviewed songs exist — the foreign-key integrity the schema
declares), the recommendation takes the personalized branch: the result is
the candidate list — up to the first 3 catalog songs whose genre is the
most common genre of the user's top-rated reviews' songs and whose id the
user has not rated — and the global fallback is taken exactly when that
candidate list is empty. -/
theorem C1_personalized_branch (s : State) (uid : Nat)
    (htop : topRatedReviews s uid ≠ [])
    (hint : ∀ r ∈ topRatedReviews s uid, ∃ g ∈ s.songs, g.id = r.song_id) :
    getRecommendations s uid
      = some (if personalCands s uid = [] then globalFallback s else personalCands s uid)
    ∧ (∀ g ∈ personalCands s uid,
        g.genre = mostCommonGenre (userGenres s uid) ∧ g.id ∉ ratedIds s uid)
    ∧ (personalCands s uid).length ≤ 3
    ∧ (personalCands s uid).Sublist s.songs := by
  refine ⟨getRecommendations_of_personal s uid _ (personalPart_eq s uid htop hint),
    ?_, List.length_take_le 3 _, (List.take_sublist 3 _).trans (List.filter_sublist _)⟩
  intro g hg
  have hmem := List.mem_of_mem_take hg
  have hcond := (List.mem_filter.mp hmem).2
  rw [Bool.and_eq_true, beq_iff_eq, Bool.not_eq_true'] at hcond
  refine ⟨hcond.1, ?_⟩
  intro hin
  have : (ratedIds s uid).contains g.id = true := by
    simpa [List.contains, List.elem_iff] using hin
  rw [this] at hcond
  exact Bool.noConfusion hcond.2

/-- Witness for C1 at the `test_recommendations_logic` scenario. -/
theorem C1_personalized_branch_witness :
    getRecommendations w1S 1
      = some (if personalCands w1S 1 = [] then globalFallback w1S else personalCands w1S 1)
    ∧ (∀ g ∈ personalCands w1S 1,
        g.genre = mostCommonGenre (userGenres w1S 1) ∧ g.id ∉ ratedIds w1S 1)
    ∧ (personalCands w1S 1).length ≤ 3
    ∧ (personalCands w1S 1).Sublist w1S.songs :=
  C1_personalized_branch w1S 1 (by decide) (by decide)

/-- Claim C2 (amended): when the personalized branch yields zero candidates
and reviews exist, the result is the set of songs whose ids rank in the top
3 by mean rating — every returned song's id is a top-hit id, the top-hit
ids all have mean rating at least that of any other reviewed song, and at
most 3 ids qualify — but the returned list is in catalog (id) order, a
sublist of the catalog, not in descending mean-rating order. -/
theorem C2_global_top_hits (s : State) (uid : Nat)
    (hfb : personalPart s uid = some [])
    (hrev : s.reviews ≠ []) :
    getRecommendations s uid = some (s.songs.filter (fun g => (topHits s).contains g.id))
    ∧ (s.songs.filter (fun g => (topHits s).contains g.id)).Sublist s.songs
    ∧ (∀ g ∈ s.songs.filter (fun g => (topHits s).contains g.id), g.id ∈ topHits s)
    ∧ (topHits s).length ≤ 3
    ∧ (∀ i ∈ topHits s, ∀ j ∈ s.reviews.map Review.song_id,
        j ∉ topHits s → meanRating s j ≤ meanRating s i) := by
  refine ⟨?_, List.filter_sublist _, ?_, topHits_length s, topHits_top3 s⟩
  · have h1 := getRecommendations_of_personal s uid [] hfb
    rw [if_pos rfl] at h1
    rw [h1]
    unfold globalFallback
    have hth : (topHits s).isEmpty = false := by
      cases hth : topHits s with
      | nil => exact absurd hth (topHits_ne_nil s hrev)
      | cons a l => rfl
    simp only [hth, Bool.false_eq_true, if_false]
  · intro g hg
    have := (List.mem_filter.mp hg).2
    simpa [List.contains, List.elem_iff] using this

/-- Witness for C2 at a store where the requesting user has no reviews and
another user rated the only song. -/
theorem C2_global_top_hits_witness :
    getRecommendations w2S 1 = some (w2S.songs.filter (fun g => (topHits w2S).contains g.id))
    ∧ (w2S.songs.filter (fun g => (topHits w2S).contains g.id)).Sublist w2S.songs
    ∧ (∀ g ∈ w2S.songs.filter (fun g => (topHits w2S).contains g.id), g.id ∈ topHits w2S)
    ∧ (topHits w2S).length ≤ 3
    ∧ (∀ i ∈ topHits w2S, ∀ j ∈ w2S.reviews.map Review.song_id,
        j ∉ topHits w2S → meanRating w2S j ≤ meanRating w2S i) :=
  C2_global_top_hits w2S 1 (by decide) (by decide)

/-- Counterexample to C2 as stated: in `cx2S` the fallback branch is taken
(user 1 has no candidates) and the top-hit ranking puts song 2 (mean 5)
before song 1 (mean 3), yet the operation returns song 1 first — catalog
order, not descending mean rating. -/
theorem C2_counterexample :
    personalPart cx2S 1 = some []
    ∧ getRecommendations cx2S 1
        = some [⟨1, "A", "Al", "G", "S", 1, 0⟩, ⟨2, "B", "Al", "G", "S", 1, 0⟩]
    ∧ topHits cx2S = [2, 1]
    ∧ meanRating cx2S 1 < meanRating cx2S 2 := by
  decide

/-- Claim C3: the most-common-genre computation returns exactly the first
genre, in encounter order, whose multiplicity among the user's top-rated
genres is maximal (`find?` returns the first list element satisfying the
predicate). Determinism is immediate: the computation is a pure function
of the store. -/
theorem C3_tie_first_encounter (s : State) (uid : Nat)
    (hne : userGenres s uid ≠ []) :
    (userGenres s uid).find? (maxPred (userGenres s uid) (userGenres s uid))
      = some (mostCommonGenre (userGenres s uid)) :=
  mostCommon_first_max (userGenres s uid) hne

/-- Witness for C3 at `w3S`, where Rock and Pop are tied at count 2 and
Rock was encountered first. -/
theorem C3_tie_first_encounter_witness :
    (userGenres w3S 1).find? (maxPred (userGenres w3S 1) (userGenres w3S 1))
      = some (mostCommonGenre (userGenres w3S 1)) :=
  C3_tie_first_encounter w3S 1 (by decide)

/-- Claim C4 (amended): on a store whose song ids are distinct and whose
rating-≥4 reviews by the requesting user all reference existing songs, the
recommendation returns 0–3 songs with pairwise distinct ids and does not
fail; a user with none of their own reviews gets the non-personalized
fallback, and with no reviews at all in the store, the first 3 catalog
songs. -/
theorem C4_total_and_bounded (s : State) (uid : Nat)
    (hids : (s.songs.map Song.id).Nodup)
    (hint : ∀ r ∈ topRatedReviews s uid, ∃ g ∈ s.songs, g.id = r.song_id) :
    ∃ recs, getRecommendations s uid = some recs
      ∧ recs.length ≤ 3
      ∧ (recs.map Song.id).Nodup
      ∧ ((∀ r ∈ s.reviews, r.user_id ≠ uid) → recs = globalFallback s)
      ∧ (s.reviews = [] → recs = s.songs.take 3) := by
  have hfb : ∀ hrecs : getRecommendations s uid = some (globalFallback s),
      ∃ recs, getRecommendations s uid = some recs
        ∧ recs.length ≤ 3 ∧ (recs.map Song.id).Nodup
        ∧ ((∀ r ∈ s.reviews, r.user_id ≠ uid) → recs = globalFallback s)
        ∧ (s.reviews = [] → recs = s.songs.take 3) := by
    intro hrecs
    obtain ⟨hlen, hnd⟩ := globalFallback_bounded s hids
    refine ⟨globalFallback s, hrecs, hlen, hnd, fun _ => rfl, ?_⟩
    intro hnil
    unfold globalFallback
    have : topHits s = [] := by
      unfold topHits
      rw [hnil]
      rfl
    rw [this]
    rfl
  by_cases htop : topRatedReviews s uid = []
  · exact hfb (by rw [getRecommendations_of_personal s uid []
      (personalPart_of_noTop s uid htop)]; rfl)
  · obtain ⟨r0, rs0, hcons⟩ : ∃ r0 rs0, topRatedReviews s uid = r0 :: rs0 := by
      cases htr : topRatedReviews s uid with
      | nil => exact absurd htr htop
      | cons a l => exact ⟨a, l, rfl⟩
    have hr0rev : r0 ∈ s.reviews := by
      have : r0 ∈ topRatedReviews s uid := by rw [hcons]; simp
      exact (List.mem_filter.mp this).1
    have hr0uid : r0.user_id = uid := by
      have : r0 ∈ topRatedReviews s uid := by rw [hcons]; simp
      have hc := (List.mem_filter.mp this).2
      rw [Bool.and_eq_true, beq_iff_eq] at hc
      exact hc.1
    have hrev : s.reviews ≠ [] := by
      intro hnil
      rw [hnil] at hr0rev
      exact List.not_mem_nil r0 hr0rev
    have huser : ¬ (∀ r ∈ s.reviews, r.user_id ≠ uid) := by
      intro hall
      exact hall r0 hr0rev hr0uid
    have hrecs := getRecommendations_of_personal s uid _ (personalPart_eq s uid htop hint)
    by_cases hc : personalCands s uid = []
    · rw [if_pos hc] at hrecs
      obtain ⟨recs, h1, h2, h3, h4, -⟩ := hfb hrecs
      exact ⟨recs, h1, h2, h3, h4, fun hnil => absurd hnil hrev⟩
    · rw [if_neg hc] at hrecs
      refine ⟨personalCands s uid, hrecs, List.length_take_le 3 _, ?_,
        fun hall => absurd hall (by simpa using huser), fun hnil => absurd hnil hrev⟩
      have hsub : (personalCands s uid).Sublist s.songs :=
        (List.take_sublist 3 _).trans (List.filter_sublist _)
      exact List.Nodup.sublist (List.Sublist.map Song.id hsub) hids

/-- Witness for C4 at the `test_recommendations_logic` scenario. -/
theorem C4_total_and_bounded_witness :
    ∃ recs, getRecommendations w1S 1 = some recs
      ∧ recs.length ≤ 3
      ∧ (recs.map Song.id).Nodup
      ∧ ((∀ r ∈ w1S.reviews, r.user_id ≠ 1) → recs = globalFallback w1S)
      ∧ (w1S.reviews = [] → recs = w1S.songs.take 3) :=
  C4_total_and_bounded w1S 1 (by decide) (by decide)

/-- Counterexample to C4 as stated: in `cx4S` user 1 has a rating-5 review
of song id 5, which no longer exists (deleting a reviewed song does not
cascade), and the recommendation operation fails — the Python code raises
an attribute error on `review.song.genre` — instead of returning a list. -/
theorem C4_counterexample : getRecommendations cx4S 1 = none := by decide

/-- Claim C5: the fallback branches do not filter out the requesting user's
rated songs: in `w5S` user 1 has reviewed song 1 (rating 3, so the
personalized branch is skipped), the global-top-hits branch is taken, and
the returned list contains that very song. -/
theorem C5_fallback_not_filtered :
    topRatedReviews w5S 1 = []
    ∧ w5Song.id ∈ ratedIds w5S 1
    ∧ getRecommendations w5S 1 = some [w5Song] := by
  decide

/-! ## Frame lemmas for the store operations -/

theorem create_user_songs {s : State} {u : UserCreate} {r : User} {s' : State}
    (h : create_user s u = .ok (r, s')) : s'.songs = s.songs := by
  unfold create_user at h
  repeat' split at h
  all_goals first
    | exact Except.noConfusion h
    | (simp only [Except.ok.injEq, Prod.mk.injEq] at h
       obtain ⟨-, h2⟩ := h
       subst h2
       rfl)

theorem update_user_songs {s : State} {actor : User} {uid : Nat} {up : UserCreate}
    {r : User} {s' : State} (h : update_user s actor uid up = .ok (r, s')) :
    s'.songs = s.songs := by
  unfold update_user at h
  repeat' split at h
  all_goals first
    | exact Except.noConfusion h
    | (simp only [Except.ok.injEq, Prod.mk.injEq] at h
       obtain ⟨-, h2⟩ := h
       subst h2
       rfl)

theorem delete_user_songs {s : State} {actor : User} {uid : Nat}
    {r : Unit} {s' : State} (h : delete_user s actor uid = .ok (r, s')) :
    s'.songs = s.songs := by
  unfold delete_user at h
  repeat' split at h
  all_goals first
    | exact Except.noConfusion h
    | (simp only [Except.ok.injEq, Prod.mk.injEq] at h
       obtain ⟨-, h2⟩ := h
       subst h2
       rfl)

theorem create_playlist_songs {s : State} {actor : User} {p : PlaylistCreate}
    {r : Playlist} {s' : State} (h : create_playlist s actor p = .ok (r, s')) :
    s'.songs = s.songs := by
  unfold create_playlist at h
  repeat' split at h
  all_goals first
    | exact Except.noConfusion h
    | (simp only [Except.ok.injEq, Prod.mk.injEq] at h
       obtain ⟨-, h2⟩ := h
       subst h2
       rfl)

theorem add_song_to_pl_songs {s : State} {actor : User} {pid sid : Nat}
    {r : Unit} {s' : State} (h : add_song_to_pl s actor pid sid = .ok (r, s')) :
    s'.songs = s.songs := by
  unfold add_song_to_pl at h
  repeat' split at h
  all_goals first
    | exact Except.noConfusion h
    | (simp only [Except.ok.injEq, Prod.mk.injEq] at h
       obtain ⟨-, h2⟩ := h
       subst h2
       rfl)

theorem update_playlist_songs {s : State} {actor : User} {pid : Nat}
    {up : PlaylistCreate} {r : Playlist} {s' : State}
    (h : update_playlist s actor pid up = .ok (r, s')) : s'.songs = s.songs := by
  unfold update_playlist at h
  repeat' split at h
  all_goals first
    | exact Except.noConfusion h
    | (simp only [Except.ok.injEq, Prod.mk.injEq] at h
       obtain ⟨-, h2⟩ := h
       subst h2
       rfl)

theorem delete_playlist_songs {s : State} {actor : User} {pid : Nat}
    {r : Unit} {s' : State} (h : delete_playlist s actor pid = .ok (r, s')) :
    s'.songs = s.songs := by
  unfold delete_playlist at h
  repeat' split at h
  all_goals first
    | exact Except.noConfusion h
    | (simp only [Except.ok.injEq, Prod.mk.injEq] at h
       obtain ⟨-, h2⟩ := h
       subst h2
       rfl)

theorem create_review_songs {s : State} {actor : User} {sid : Nat}
    {rev : ReviewCreate} {r : Review} {s' : State}
    (h : create_review s actor sid rev = .ok (r, s')) : s'.songs = s.songs := by
  unfold create_review at h
  repeat' split at h
  all_goals first
    | exact Except.noConfusion h
    | (simp only [Except.ok.injEq, Prod.mk.injEq] at h
       obtain ⟨-, h2⟩ := h
       subst h2
       rfl)

theorem delete_song_songs {s : State} {actor : User} {sid : Nat}
    {r : Unit} {s' : State} (h : delete_song s actor sid = .ok (r, s')) :
    s'.songs = s.songs.filter (fun g => !(g.id == sid)) := by
  unfold delete_song at h
  repeat' split at h
  all_goals first
    | exact Except.noConfusion h
    | (simp only [Except.ok.injEq, Prod.mk.injEq] at h
       obtain ⟨-, h2⟩ := h
       subst h2
       rfl)

theorem add_song_ok {s : State} {actor : User} {song : SongCreate} {r : Song} {s' : State}
    (h : add_song s actor song = .ok (r, s')) :
    s'.songs = s.songs ++ [⟨s.nextSongId, song.title, song.album, song.genre, song.singer,
      song.length, song.date_of_publication⟩]
    ∧ s.songs.find? (fun g => (g.title == song.title) && (g.singer == song.singer)
        && (g.album == song.album)) = none := by
  unfold add_song at h
  split at h
  · exact Except.noConfusion h
  · split at h
    · exact Except.noConfusion h
    · rename_i hrole hdup
      simp only [Except.ok.injEq, Prod.mk.injEq] at h
      obtain ⟨-, h2⟩ := h
      subst h2
      exact ⟨rfl, Option.not_isSome_iff_eq_none.mp hdup⟩

theorem dedup_of_songs_eq {s s' : State} (h : s'.songs = s.songs) (hd : CatalogDedup s) :
    CatalogDedup s' := by
  unfold CatalogDedup at hd ⊢
  rw [h]
  exact hd

theorem add_song_preserves_dedup {s : State} {actor : User} {song : SongCreate}
    {r : Song} {s' : State} (h : add_song s actor song = .ok (r, s'))
    (hd : CatalogDedup s) : CatalogDedup s' := by
  obtain ⟨hsongs, hnone⟩ := add_song_ok h
  unfold CatalogDedup at hd ⊢
  rw [hsongs, List.pairwise_append]
  refine ⟨hd, by simp, ?_⟩
  intro a ha b hb
  simp only [List.mem_singleton] at hb
  subst hb
  rintro ⟨ht, hsg, hal⟩
  apply List.find?_eq_none.mp hnone a ha
  simp [ht, hsg, hal]

theorem delete_song_preserves_dedup {s : State} {actor : User} {sid : Nat}
    {r : Unit} {s' : State} (h : delete_song s actor sid = .ok (r, s'))
    (hd : CatalogDedup s) : CatalogDedup s' := by
  unfold CatalogDedup at hd ⊢
  rw [delete_song_songs h]
  exact List.Pairwise.sublist (List.filter_sublist _) hd

/-! ## Claims about the operations -/

/-- Claim C6 (amended): an admin's song creation with a (title, singer,
album) triple already in the catalog fails with Conflict regardless of the
other fields, and the de-duplication invariant holds in every state
reachable from the empty store by the system's operations other than song
update — song update itself re-checks nothing and can break the invariant
(see the counterexample). -/
theorem C6_dedup_invariant :
    (∀ s, ReachableSafe s → CatalogDedup s)
    ∧ (∀ (s : State) (actor : User) (song : SongCreate), actor.role = "Admin" →
        (∃ g ∈ s.songs, g.title = song.title ∧ g.singer = song.singer
          ∧ g.album = song.album) →
        add_song s actor song = .error .conflict) := by
  constructor
  · intro s h
    unfold ReachableSafe at h
    induction h with
    | refl => decide
    | tail _ hbc ih =>
      cases hbc with
      | createUser s u r heq => exact dedup_of_songs_eq (create_user_songs heq) ih
      | updateUser s actor uid up r hm heq =>
          exact dedup_of_songs_eq (update_user_songs heq) ih
      | deleteUser s actor uid r hm heq =>
          exact dedup_of_songs_eq (delete_user_songs heq) ih
      | addSong s actor song r hm heq => exact add_song_preserves_dedup heq ih
      | deleteSong s actor sid r hm heq => exact delete_song_preserves_dedup heq ih
      | createPlaylist s actor p r hm heq =>
          exact dedup_of_songs_eq (create_playlist_songs heq) ih
      | addSongToPl s actor pid sid r hm heq =>
          exact dedup_of_songs_eq (add_song_to_pl_songs heq) ih
      | updatePlaylist s actor pid up r hm heq =>
          exact dedup_of_songs_eq (update_playlist_songs heq) ih
      | deletePlaylist s actor pid r hm heq =>
          exact dedup_of_songs_eq (delete_playlist_songs heq) ih
      | createReview s actor sid rev r hm heq =>
          exact dedup_of_songs_eq (create_review_songs heq) ih
  · intro s actor song hrole hdup
    unfold add_song
    have hcond : (s.songs.find? (fun g => (g.title == song.title)
        && (g.singer == song.singer) && (g.album == song.album))).isSome = true := by
      rw [List.find?_isSome]
      obtain ⟨g, hg, h1, h2, h3⟩ := hdup
      exact ⟨g, hg, by simp [h1, h2, h3]⟩
    rw [if_neg (by simp [hrole]), if_pos hcond]

/-- Witness for C6: the invariant holds in the empty store, and adding a
song whose (title, singer, album) triple duplicates the one in `s6b` —
with a different length and date — is a Conflict. -/
theorem C6_dedup_invariant_witness :
    CatalogDedup initState
    ∧ add_song s6b wAdmin ⟨"T", "A", "G", "S", 2, 9⟩ = .error .conflict :=
  ⟨C6_dedup_invariant.1 initState Relation.ReflTransGen.refl,
   C6_dedup_invariant.2 s6b wAdmin ⟨"T", "A", "G", "S", 2, 9⟩ rfl (by decide)⟩

/-- Counterexample to C6 as stated: the state `cx6S`, in which songs 1 and
2 share the triple ("T", "S", "A"), is reachable from the empty store —
register an admin, add two songs with distinct titles, then update song 2's
title to "T" — so song update does not preserve the invariant. -/
theorem C6_counterexample : Reachable cx6S ∧ ¬ CatalogDedup cx6S := by
  constructor
  · unfold Reachable
    have h1 : Step initState s6a :=
      Step.createUser initState ⟨"boss", "pw", "Admin"⟩ wAdmin s6a (by decide)
    have h2 : Step s6a s6b :=
      Step.addSong s6a wAdmin ⟨"T", "A", "G", "S", 1, 0⟩ ⟨1, "T", "A", "G", "S", 1, 0⟩ s6b
        (by decide) (by decide)
    have h3 : Step s6b s6c :=
      Step.addSong s6b wAdmin ⟨"T2", "A", "G", "S", 1, 0⟩ ⟨2, "T2", "A", "G", "S", 1, 0⟩ s6c
        (by decide) (by decide)
    have h4 : Step s6c cx6S :=
      Step.updateSong s6c wAdmin 2 ⟨"T", "A", "G", "S", 1, 0⟩ ⟨2, "T", "A", "G", "S", 1, 0⟩
        cx6S (by decide) (by decide)
    exact Relation.ReflTransGen.tail (Relation.ReflTransGen.tail
      (Relation.ReflTransGen.tail (Relation.ReflTransGen.single h1) h2) h3) h4
  · decide

/-- Claim C7: review creation succeeds — appending exactly one new review
with a fresh id and touching nothing else — precisely when the song exists,
the actor has not reviewed it yet and the rating lies in [1, 5]; on an
existing song, an out-of-range rating or a duplicate (user, song) review
fails with Conflict. -/
theorem C7_create_review_spec (s : State) (actor : User) (sid : Nat) (rev : ReviewCreate) :
    ((∃ r' s', create_review s actor sid rev = .ok (r', s'))
      ↔ ((∃ g ∈ s.songs, g.id = sid)
          ∧ (∀ r ∈ s.reviews, ¬(r.user_id = actor.id ∧ r.song_id = sid))
          ∧ 1 ≤ rev.rating ∧ rev.rating ≤ 5))
    ∧ (∀ r' s', create_review s actor sid rev = .ok (r', s') →
        r' = ⟨s.nextReviewId, actor.id, sid, rev.rating, rev.comment⟩
        ∧ s'.reviews = s.reviews ++ [r']
        ∧ s'.users = s.users ∧ s'.songs = s.songs ∧ s'.playlists = s.playlists
        ∧ s'.playlistSongs = s.playlistSongs)
    ∧ ((∃ g ∈ s.songs, g.id = sid) →
        ((∃ r ∈ s.reviews, r.user_id = actor.id ∧ r.song_id = sid)
          ∨ rev.rating < 1 ∨ 5 < rev.rating) →
        create_review s actor sid rev = .error .conflict) := by
  cases hf : s.songs.find? (fun g => g.id == sid) with
  | none =>
    have hnog : ¬ ∃ g ∈ s.songs, g.id = sid := by
      rintro ⟨g, hg, hid⟩
      have hs : (s.songs.find? (fun g => g.id == sid)).isSome = true := by
        rw [List.find?_isSome]
        exact ⟨g, hg, by simp [hid]⟩
      rw [hf] at hs
      exact Bool.noConfusion hs
    have herr : create_review s actor sid rev = .error .notFound := by
      unfold create_review
      rw [hf]
    refine ⟨?_, ?_, ?_⟩
    · constructor
      · rintro ⟨r', s', hok⟩
        rw [herr] at hok
        exact Except.noConfusion hok
      · rintro ⟨hg, -, -⟩
        exact absurd hg hnog
    · intro r' s' hok
      rw [herr] at hok
      exact Except.noConfusion hok
    · intro hg
      exact absurd hg hnog
  | some g0 =>
    have hg0 : g0.id = sid := by
      have := List.find?_some hf
      simpa using this
    have hg0mem : g0 ∈ s.songs := List.mem_of_find?_eq_some hf
    have hred : create_review s actor sid rev
        = (if (s.reviews.find? (fun r =>
              (r.user_id == actor.id) && (r.song_id == g0.id))).isSome then
            Except.error Err.conflict
          else if rev.rating < 1 ∨ 5 < rev.rating then
            Except.error Err.conflict
          else
            Except.ok (⟨s.nextReviewId, actor.id, g0.id, rev.rating, rev.comment⟩,
              { s with
                reviews := s.reviews
                  ++ [⟨s.nextReviewId, actor.id, g0.id, rev.rating, rev.comment⟩]
                nextReviewId := s.nextReviewId + 1 })) := by
      unfold create_review
      split
      · rename_i hnone
        rw [hf] at hnone
        exact Option.noConfusion hnone
      · rename_i exist_song hsome
        rw [hf] at hsome
        injection hsome with hes
        subst hes
        rfl
    by_cases hdupb : (s.reviews.find? (fun r =>
        (r.user_id == actor.id) && (r.song_id == g0.id))).isSome = true
    · have herr : create_review s actor sid rev = .error .conflict := by
        rw [hred, if_pos hdupb]
      have hdup : ∃ r ∈ s.reviews, r.user_id = actor.id ∧ r.song_id = sid := by
        rw [List.find?_isSome] at hdupb
        obtain ⟨r, hr, hcond⟩ := hdupb
        rw [Bool.and_eq_true, beq_iff_eq, beq_iff_eq] at hcond
        exact ⟨r, hr, hcond.1, hg0 ▸ hcond.2⟩
      refine ⟨?_, ?_, fun _ _ => herr⟩
      · constructor
        · rintro ⟨r', s', hok⟩
          rw [herr] at hok
          exact Except.noConfusion hok
        · rintro ⟨-, hnodup, -⟩
          obtain ⟨r, hr, h1, h2⟩ := hdup
          exact absurd ⟨h1, h2⟩ (hnodup r hr)
      · intro r' s' hok
        rw [herr] at hok
        exact Except.noConfusion hok
    · have hnodup : ∀ r ∈ s.reviews, ¬(r.user_id = actor.id ∧ r.song_id = sid) := by
        rintro r hr ⟨h1, h2⟩
        apply hdupb
        rw [List.find?_isSome]
        exact ⟨r, hr, by simp [h1, h2, hg0]⟩
      by_cases hrat : rev.rating < 1 ∨ 5 < rev.rating
      · have herr : create_review s actor sid rev = .error .conflict := by
          rw [hred, if_neg hdupb, if_pos hrat]
        refine ⟨?_, ?_, fun _ _ => herr⟩
        · constructor
          · rintro ⟨r', s', hok⟩
            rw [herr] at hok
            exact Except.noConfusion hok
          · rintro ⟨-, -, hlo, hhi⟩
            rcases hrat with h | h
            · exact absurd hlo (not_le.mpr h)
            · exact absurd hhi (not_le.mpr h)
        · intro r' s' hok
          rw [herr] at hok
          exact Except.noConfusion hok
      · have hrat' : 1 ≤ rev.rating ∧ rev.rating ≤ 5 := by
          constructor
          · exact not_lt.mp (fun hlt => hrat (Or.inl hlt))
          · exact not_lt.mp (fun hlt => hrat (Or.inr hlt))
        have hok : create_review s actor sid rev
            = .ok (⟨s.nextReviewId, actor.id, g0.id, rev.rating, rev.comment⟩,
              { s with
                reviews := s.reviews
                  ++ [⟨s.nextReviewId, actor.id, g0.id, rev.rating, rev.comment⟩]
                nextReviewId := s.nextReviewId + 1 }) := by
          rw [hred, if_neg hdupb, if_neg hrat]
        refine ⟨?_, ?_, ?_⟩
        · constructor
          · intro _
            exact ⟨⟨g0, hg0mem, hg0⟩, hnodup, hrat'.1, hrat'.2⟩
          · intro _
            exact ⟨_, _, hok⟩
        · intro r' s' hok2
          rw [hok] at hok2
          simp only [Except.ok.injEq, Prod.mk.injEq] at hok2
          obtain ⟨h1, h2⟩ := hok2
          subst h1
          subst h2
          refine ⟨by rw [hg0], rfl, rfl, rfl, rfl, rfl⟩
        · intro hg hbad
          rcases hbad with hdup | h | h
          · obtain ⟨r, hr, hc⟩ := hdup
            exact absurd hc (hnodup r hr)
          · exact absurd hrat'.1 (not_le.mpr h)
          · exact absurd hrat'.2 (not_le.mpr h)

/-- Witness for C7: a rating of 6 on the existing song of `s6b` is a
Conflict. -/
theorem C7_create_review_spec_witness :
    create_review s6b wAdmin 1 ⟨6, "too good"⟩ = .error .conflict :=
  (C7_create_review_spec s6b wAdmin 1 ⟨6, "too good"⟩).2.2 (by decide)
    (Or.inr (Or.inr (by decide)))

/-- Claim C8: for an existing playlist, update, delete and add-song are
denied with Forbidden exactly when the actor is not the owning user — role
plays no part, so an admin who is not the owner is denied too. -/
theorem C8_playlist_owner_only (s : State) (actor : User) (pid sid : Nat) (pl : Playlist)
    (upd : PlaylistCreate) (hfind : s.playlists.find? (fun p => p.id == pid) = some pl) :
    (update_playlist s actor pid upd = .error .forbidden ↔ pl.user_id ≠ actor.id)
    ∧ (delete_playlist s actor pid = .error .forbidden ↔ pl.user_id ≠ actor.id)
    ∧ (add_song_to_pl s actor pid sid = .error .forbidden ↔ pl.user_id ≠ actor.id) := by
  refine ⟨?_, ?_, ?_⟩
  · obtain ⟨rest, hred, hrest⟩ : ∃ rest : Except Err (Playlist × State),
        update_playlist s actor pid upd
          = (if pl.user_id ≠ actor.id then Except.error Err.forbidden else rest)
        ∧ ((∃ e, e ≠ Err.forbidden ∧ rest = Except.error e)
            ∨ ∃ v st, rest = Except.ok (v, st)) := by
      unfold update_playlist
      split
      · rename_i hnone
        rw [hfind] at hnone
        exact Option.noConfusion hnone
      · rename_i playlist hsome
        rw [hfind] at hsome
        injection hsome with hpl
        subst hpl
        refine ⟨_, rfl, ?_⟩
        split
        · exact Or.inl ⟨Err.conflict, by decide, rfl⟩
        · exact Or.inr ⟨_, _, rfl⟩
    rw [hred]
    by_cases how : pl.user_id ≠ actor.id
    · rw [if_pos how]
      exact ⟨fun _ => how, fun _ => rfl⟩
    · rw [if_neg how]
      constructor
      · intro hcontra
        rcases hrest with ⟨e, hne, hc⟩ | ⟨v, st, hc⟩
        · rw [hc] at hcontra
          exact absurd (Except.error.inj hcontra) hne
        · rw [hc] at hcontra
          exact Except.noConfusion hcontra
      · intro h
        exact absurd h how
  · obtain ⟨rest, hred, hrest⟩ : ∃ rest : Except Err (Unit × State),
        delete_playlist s actor pid
          = (if pl.user_id ≠ actor.id then Except.error Err.forbidden else rest)
        ∧ ((∃ e, e ≠ Err.forbidden ∧ rest = Except.error e)
            ∨ ∃ v st, rest = Except.ok (v, st)) := by
      unfold delete_playlist
      split
      · rename_i hnone
        rw [hfind] at hnone
        exact Option.noConfusion hnone
      · rename_i playlist hsome
        rw [hfind] at hsome
        injection hsome with hpl
        subst hpl
        exact ⟨_, rfl, Or.inr ⟨_, _, rfl⟩⟩
    rw [hred]
    by_cases how : pl.user_id ≠ actor.id
    · rw [if_pos how]
      exact ⟨fun _ => how, fun _ => rfl⟩
    · rw [if_neg how]
      constructor
      · intro hcontra
        rcases hrest with ⟨e, hne, hc⟩ | ⟨v, st, hc⟩
        · rw [hc] at hcontra
          exact absurd (Except.error.inj hcontra) hne
        · rw [hc] at hcontra
          exact Except.noConfusion hcontra
      · intro h
        exact absurd h how
  · obtain ⟨rest, hred, hrest⟩ : ∃ rest : Except Err (Unit × State),
        add_song_to_pl s actor pid sid
          = (if pl.user_id ≠ actor.id then Except.error Err.forbidden else rest)
        ∧ ((∃ e, e ≠ Err.forbidden ∧ rest = Except.error e)
            ∨ ∃ v st, rest = Except.ok (v, st)) := by
      unfold add_song_to_pl
      split
      · rename_i hnone
        rw [hfind] at hnone
        exact Option.noConfusion hnone
      · rename_i playlist hsome
        rw [hfind] at hsome
        injection hsome with hpl
        subst hpl
        refine ⟨_, rfl, ?_⟩
        split
        · exact Or.inl ⟨Err.notFound, by decide, rfl⟩
        · split
          · exact Or.inl ⟨Err.conflict, by decide, rfl⟩
          · exact Or.inr ⟨_, _, rfl⟩
    rw [hred]
    by_cases how : pl.user_id ≠ actor.id
    · rw [if_pos how]
      exact ⟨fun _ => how, fun _ => rfl⟩
    · rw [if_neg how]
      constructor
      · intro hcontra
        rcases hrest with ⟨e, hne, hc⟩ | ⟨v, st, hc⟩
        · rw [hc] at hcontra
          exact absurd (Except.error.inj hcontra) hne
        · rw [hc] at hcontra
          exact Except.noConfusion hcontra
      · intro h
        exact absurd h how

/-- Witness for C8: the admin (id 1) is denied Forbidden on user 2's
playlist in `w8S`, for all three operations. -/
theorem C8_playlist_owner_only_witness :
    (update_playlist w8S wAdmin 1 ⟨"New"⟩ = .error .forbidden
      ↔ (⟨1, "Mix", 2⟩ : Playlist).user_id ≠ wAdmin.id)
    ∧ (delete_playlist w8S wAdmin 1 = .error .forbidden
      ↔ (⟨1, "Mix", 2⟩ : Playlist).user_id ≠ wAdmin.id)
    ∧ (add_song_to_pl w8S wAdmin 1 5 = .error .forbidden
      ↔ (⟨1, "Mix", 2⟩ : Playlist).user_id ≠ wAdmin.id) :=
  C8_playlist_owner_only w8S wAdmin 1 5 ⟨1, "Mix", 2⟩ ⟨"New"⟩ (by decide)

/-- Claim C9: user update and user delete are denied with Forbidden exactly
when the actor is neither the target (actor.id = target id) nor an Admin;
the two conditions are OR'd, so an admin acting on their own account
passes. -/
theorem C9_self_or_admin (s : State) (actor : User) (uid : Nat) (up : UserCreate) :
    (update_user s actor uid up = .error .forbidden
      ↔ ¬(actor.id = uid ∨ actor.role = "Admin"))
    ∧ (delete_user s actor uid = .error .forbidden
      ↔ ¬(actor.id = uid ∨ actor.role = "Admin")) := by
  constructor
  · unfold update_user
    by_cases hc : actor.id ≠ uid ∧ actor.role ≠ "Admin"
    · rw [if_pos hc]
      constructor
      · intro _
        push_neg
        exact hc
      · intro _
        rfl
    · rw [if_neg hc]
      constructor
      · intro hcontra
        split at hcontra
        · exact absurd (Except.error.inj hcontra) (by decide)
        · exact Except.noConfusion hcontra
      · intro hn
        push_neg at hn
        exact absurd hn hc
  · unfold delete_user
    by_cases hc : actor.id ≠ uid ∧ actor.role ≠ "Admin"
    · rw [if_pos hc]
      constructor
      · intro _
        push_neg
        exact hc
      · intro _
        rfl
    · rw [if_neg hc]
      constructor
      · intro hcontra
        split at hcontra
        · exact absurd (Except.error.inj hcontra) (by decide)
        · exact Except.noConfusion hcontra
      · intro hn
        push_neg at hn
        exact absurd hn hc

/-- Claim C10: a successful user update changes at most the username and
the password hash: the (id, role) projection of the user table is
untouched, the returned user keeps the target's id, and its role equals
the stored role of the target — even though the payload carries a role. -/
theorem C10_update_user_preserves_role (s : State) (actor : User) (uid : Nat)
    (up : UserCreate) (r : User) (s' : State)
    (hids : (s.users.map User.id).Nodup)
    (h : update_user s actor uid up = .ok (r, s')) :
    s'.users.map (fun u => (u.id, u.role)) = s.users.map (fun u => (u.id, u.role))
    ∧ r.id = uid
    ∧ (∀ u ∈ s.users, u.id = uid → r.role = u.role) := by
  unfold update_user at h
  split at h
  · exact Except.noConfusion h
  · split at h
    · exact Except.noConfusion h
    · rename_i hperm db_user hfind
      have hdbmem : db_user ∈ s.users := List.mem_of_find?_eq_some hfind
      have hdbid : db_user.id = uid := by
        have := List.find?_some hfind
        simpa using this
      have huniq : ∀ u ∈ s.users, u.id = uid → u = db_user := by
        intro u hu hid
        exact List.inj_on_of_nodup_map hids hu hdbmem (by rw [hid, hdbid])
      simp only [Except.ok.injEq, Prod.mk.injEq] at h
      obtain ⟨h1, h2⟩ := h
      have hu2 : r.id = db_user.id ∧ r.role = db_user.role := by
        rw [← h1]
        by_cases ha : up.username ≠ "" <;> by_cases hb : up.password ≠ "" <;>
          simp [ha, hb]
      refine ⟨?_, by rw [hu2.1, hdbid], ?_⟩
      · rw [← h2, List.map_map]
        apply List.map_congr_left
        intro u hu
        simp only [Function.comp_apply]
        by_cases hid : u.id == uid
        · rw [if_pos hid, h1]
          have hud : u = db_user := huniq u hu (by simpa using hid)
          rw [hu2.1, hu2.2, hud]
        · rw [if_neg hid]
      · intro u hu hid
        rw [hu2.2, huniq u hu hid]

/-- Witness for C10: user 1 self-updates with a payload carrying role
"Admin"; the stored role stays "User" and the id stays 1. -/
theorem C10_update_user_preserves_role_witness :
    w10S2.users.map (fun u => (u.id, u.role)) = w10S.users.map (fun u => (u.id, u.role))
    ∧ w10U2.id = 1
    ∧ (∀ u ∈ w10S.users, u.id = 1 → w10U2.role = u.role) :=
  C10_update_user_preserves_role w10S w10U 1 ⟨"nova", "parola2", "Admin"⟩ w10U2 w10S2
    (by decide) (by decide)

end TuneCheck
